import Mathlib

/-!
Model of the QdrantDB vector-store adapter
(`llmagent/vector_store/qdrantdb.py`).

The adapter delegates all storage to an external Qdrant service.  Each
adapter method is modelled as a pure function that, given the adapter
object and an abstract state of the external service, returns the trace
of requests issued to the service, the warnings it logs, and either the
method's result (together with the updated service state) or the message
of the raised exception.  Debug-only logging (guarded by
`settings.debug` in the source) is not part of the model, since it is
disabled by default and observable only in the log stream.
-/

namespace Qdrant

/-- Embedding vectors.  The numeric component type is irrelevant to the
adapter (it never inspects entries), so we use `Int`. -/
abbrev Vec := List Int

/-- Modelled from the spec: `llmagent.mytypes.Document` (its module is not
among the sources) is an opaque payload with a textual `content` field and
an externally assigned identifier (`d.id()` in the source). -/
structure Document where
  content : String
  ident : String
  deriving DecidableEq, Repr

/-- Point identifiers: Qdrant accepts integers or UUID-like strings. -/
inductive PointId where
  | int (n : Int)
  | str (s : String)
  deriving DecidableEq, Repr

/-- A point stored in a collection of the external service. -/
structure StoredPoint where
  pid : PointId
  vector : Vec
  payload : Document
  deriving DecidableEq, Repr

/-- A search match returned by the external service. -/
structure ScoredPoint where
  payload : Document
  score : Int
  deriving DecidableEq, Repr

/-- `qdrant_client` collection status. -/
inductive CollectionStatus where
  | green
  | yellow
  | red
  deriving DecidableEq, Repr

/-- What `client.get_collection` reports about one collection. -/
structure CollectionInfo where
  status : CollectionStatus
  vectorSize : Nat
  points : List StoredPoint
  deriving DecidableEq, Repr

/-- `points_count` of a collection. -/
def pointsCount (info : CollectionInfo) : Nat := info.points.length

/-- The `Filter` argument of a search: `Filter()` when no `where` string is
given, `Filter.from_json(where)` otherwise. -/
inductive QFilter where
  | empty
  | fromJson (json : String)
  deriving DecidableEq, Repr

/-- A `client.search` request as issued by the adapter. -/
structure SearchReq where
  collection : String
  queryVector : Vec
  queryFilter : QFilter
  limit : Nat
  hnsw_ef : Nat
  exact : Bool
  deriving DecidableEq, Repr

/-- A `client.upsert` request as issued by the adapter (the fields of the
`Batch` object). -/
structure UpsertReq where
  collection : String
  ids : List String
  vectors : List Vec
  payloads : List Document
  deriving DecidableEq, Repr

/-- The requests the adapter can issue to the external client. -/
inductive Request where
  | getCollections
  | getCollection (name : String)
  | deleteCollection (name : String)
  | recreateCollection (name : String) (dim : Nat)
  | upsert (req : UpsertReq)
  | retrieve (collection : String) (ids : List PointId)
  | search (req : SearchReq)
  deriving DecidableEq, Repr

/-- Abstract state of the external Qdrant service: the named collections,
plus an oracle `ann` giving the ordered result list of the service's
approximate-nearest-neighbour engine for a search request.  The service
truncates the oracle's answer to the requested `limit`
(see `clientSearch`). -/
structure ClientState where
  collections : List (String × CollectionInfo)
  ann : SearchReq → List ScoredPoint

/-- `client.get_collection name`, as a lookup in the abstract state. -/
def getColl (s : ClientState) (name : String) : Option CollectionInfo :=
  (s.collections.find? (fun e => e.1 == name)).map Prod.snd

/-- `client.delete_collection name`. -/
def deleteColl (s : ClientState) (name : String) : ClientState :=
  { s with collections := s.collections.filter (fun e => e.1 != name) }

/-- `client.recreate_collection name` with a fresh empty collection of the
given vector dimensionality (status reported `GREEN`). -/
def recreateColl (s : ClientState) (name : String) (dim : Nat) : ClientState :=
  { s with collections :=
      s.collections.filter (fun e => e.1 != name) ++
        [(name, ⟨CollectionStatus.green, dim, []⟩)] }

/-- `client.search`: the ANN oracle's results, truncated to the requested
limit as the service guarantees. -/
def clientSearch (s : ClientState) (req : SearchReq) : List ScoredPoint :=
  (s.ann req).take req.limit

/-- `QdrantDBConfig`.  Connection fields (`cloud`, `url`, `storage_path`,
`timeout`) only select how the external client handle is constructed,
which is I/O outside the model; `batch_size` is inherited from
`VectorStoreConfig`. -/
structure QdrantDBConfig where
  collection_name : Option String := none
  batch_size : Nat
  cloud : Bool := true
  storage_path : String := ".qdrant/data"
  distance : String := "Cosine"

/-- The adapter object: its configuration plus the embedding function and
embedding dimensionality obtained from the embedding model in `__init__`
(the embedding model itself is external to this module). -/
structure QdrantDB where
  config : QdrantDBConfig
  embedding_fn : List String → List Vec
  embedding_dim : Nat

/-- `QdrantDB.list_collections`: one `get_collections` request, then one
`get_collection` request per collection; returns the names of the
collections whose point count is positive, by zipping the collections
with their separately fetched counts and filtering. -/
def list_collections (s : ClientState) : List String × List Request :=
  let colls := s.collections
  let counts := colls.map (fun c => pointsCount c.2)
  (((colls.zip counts).filter (fun pc => 0 < pc.2)).map (fun pc => pc.1.1),
    Request.getCollections :: colls.map (fun c => Request.getCollection c.1))

theorem zip_counts_eq (l : List (String × CollectionInfo)) :
    ((l.zip (l.map (fun c => pointsCount c.2))).filter
        (fun pc => 0 < pc.2)).map (fun pc => pc.1.1)
      = (l.filter (fun e => 0 < pointsCount e.2)).map Prod.fst := by
  induction l with
  | nil => rfl
  | cons e t ih =>
    simp only [List.map_cons, List.zip_cons_cons, List.filter_cons]
    by_cases h : 0 < pointsCount e.2
    · simp [h, ih]
    · simp [h, ih]

theorem mem_list_collections (s : ClientState) (name : String) :
    name ∈ (list_collections s).1
      ↔ ∃ e ∈ s.collections, e.1 = name ∧ 0 < pointsCount e.2 := by
  have hbase : (list_collections s).1
      = (s.collections.filter (fun e => 0 < pointsCount e.2)).map Prod.fst :=
    zip_counts_eq s.collections
  rw [hbase]
  constructor
  · intro hmem
    rcases List.mem_map.mp hmem with ⟨e, he, hfst⟩
    rcases List.mem_filter.mp he with ⟨hel, hcnt⟩
    exact ⟨e, hel, hfst, of_decide_eq_true hcnt⟩
  · rintro ⟨e, hel, hfst, hcnt⟩
    exact List.mem_map.mpr
      ⟨e, List.mem_filter.mpr ⟨hel, decide_eq_true hcnt⟩, hfst⟩

/-- C4: `list_collections` returns exactly the names of the collections
whose stored-point count is positive, omitting every empty collection;
equivalently, a name is returned iff some collection with that name holds
at least one point. -/
theorem list_collections_nonempty_only (s : ClientState) :
    (list_collections s).1
        = (s.collections.filter (fun e => 0 < pointsCount e.2)).map Prod.fst
      ∧ ∀ name : String, name ∈ (list_collections s).1
        ↔ ∃ e ∈ s.collections, e.1 = name ∧ 0 < pointsCount e.2 :=
  ⟨zip_counts_eq s.collections, fun name => mem_list_collections s name⟩

theorem getColl_some {s : ClientState} {name : String} {info : CollectionInfo}
    (h : getColl s name = some info) : (name, info) ∈ s.collections := by
  unfold getColl at h
  rcases Option.map_eq_some'.mp h with ⟨e, hfind, hsnd⟩
  have hmem := List.mem_of_find?_eq_some hfind
  have hp := List.find?_some hfind
  have hfst : e.1 = name := by simpa using hp
  obtain ⟨e1, e2⟩ := e
  simp only at hfst hsnd
  rw [← hfst, ← hsnd]
  exact hmem

theorem mem_listed_of_getColl {s : ClientState} {name : String}
    {info : CollectionInfo} (hg : getColl s name = some info)
    (hpos : 0 < pointsCount info) : name ∈ (list_collections s).1 :=
  (mem_list_collections s name).mpr ⟨(name, info), getColl_some hg, rfl, hpos⟩

theorem getColl_ne_none_of_mem_listed {s : ClientState} {name : String}
    (h : name ∈ (list_collections s).1) : getColl s name ≠ none := by
  rcases (mem_list_collections s name).mp h with ⟨e, hel, hfst, _⟩
  intro hnone
  unfold getColl at hnone
  rw [Option.map_eq_none'] at hnone
  exact List.find?_eq_none.mp hnone e hel (by simp [hfst])

theorem find?_append_none {α : Type} (p : α → Bool) {l1 : List α}
    (l2 : List α) (h : l1.find? p = none) :
    (l1 ++ l2).find? p = l2.find? p := by
  induction l1 with
  | nil => rfl
  | cons a t ih =>
    cases hpa : p a
    · have h2 : t.find? p = none := by
        simpa [List.find?, hpa] using h
      simpa [List.find?, hpa] using ih h2
    · exfalso
      simp [List.find?, hpa] at h

theorem getColl_recreate (s : ClientState) (name : String) (dim : Nat) :
    getColl (recreateColl s name dim) name
      = some ⟨CollectionStatus.green, dim, []⟩ := by
  unfold getColl recreateColl
  have hnone : (s.collections.filter (fun e => e.1 != name)).find?
      (fun e => e.1 == name) = none := by
    apply List.find?_eq_none.mpr
    intro e he
    have hne := (List.mem_filter.mp he).2
    simp only [bne_iff_ne, ne_eq, decide_eq_true_eq] at hne
    simp [hne]
  simp only [find?_append_none _ _ hnone, List.find?]
  simp

/-- Sets `self.config.collection_name = name` (the first statement of both
`set_collection` and `create_collection`). -/
def withName (db : QdrantDB) (name : String) : QdrantDB :=
  { db with config := { db.config with collection_name := some name } }

/-- The tail of `QdrantDB.create_collection` after the early-return check:
`recreate_collection` with `size = embedding_dim`, then `get_collection`
and the two assertions (`status == GREEN`, `vectors_count == 0`),
modelled as an error when they fail. -/
def createRest (db2 : QdrantDB) (s : ClientState) (name : String)
    (reqs0 : List Request) :
    List Request × List String × Except String (QdrantDB × ClientState) :=
  let s2 := recreateColl s name db2.embedding_dim
  let reqs := reqs0 ++ [Request.recreateCollection name db2.embedding_dim,
    Request.getCollection name]
  match getColl s2 name with
  | none => (reqs, [], Except.error "collection not found")
  | some info =>
    if info.status = CollectionStatus.green ∧ pointsCount info = 0 then
      (reqs, [], Except.ok (db2, s2))
    else (reqs, [], Except.error "assertion failed")

/-- `QdrantDB.create_collection`: record the name in the config, list the
(non-empty) collections, and if the name is among them and its collection
is `GREEN` with a positive point count, log a warning and return;
otherwise recreate the collection. -/
def create_collection (db : QdrantDB) (s : ClientState) (name : String) :
    List Request × List String × Except String (QdrantDB × ClientState) :=
  let db2 := withName db name
  let listed := (list_collections s).1
  let reqs0 := (list_collections s).2
  if name ∈ listed then
    match getColl s name with
    | none =>
        (reqs0 ++ [Request.getCollection name], [],
          Except.error "collection not found")
    | some coll =>
      if coll.status = CollectionStatus.green ∧ 0 < pointsCount coll then
        (reqs0 ++ [Request.getCollection name],
          ["Non-empty Collection " ++ name ++ " already exists"],
          Except.ok (db2, s))
      else
        createRest db2 s name (reqs0 ++ [Request.getCollection name])
  else
    createRest db2 s name reqs0

/-- `QdrantDB.set_collection`: record the name in the config and create the
collection when the name is not among the listed (non-empty) ones. -/
def set_collection (db : QdrantDB) (s : ClientState) (name : String) :
    List Request × List String × Except String (QdrantDB × ClientState) :=
  let db2 := withName db name
  let listed := (list_collections s).1
  let reqs0 := (list_collections s).2
  if name ∈ listed then (reqs0, [], Except.ok (db2, s))
  else
    let rest := create_collection db2 s name
    (reqs0 ++ rest.1, rest.2.1, rest.2.2)

/-- The loop body of `clear_empty_collections`: for each enumerated name,
fetch the collection and delete it when its point count is zero,
counting the deletions. -/
def clearLoop (names : List String) (s : ClientState) :
    List Request × Except String (Nat × ClientState) :=
  match names with
  | [] => ([], Except.ok (0, s))
  | name :: rest =>
    match getColl s name with
    | none => ([Request.getCollection name], Except.error "collection not found")
    | some info =>
      if pointsCount info = 0 then
        let r := clearLoop rest (deleteColl s name)
        (Request.getCollection name :: Request.deleteCollection name :: r.1,
          r.2.map (fun p => (p.1 + 1, p.2)))
      else
        let r := clearLoop rest s
        (Request.getCollection name :: r.1, r.2)

/-- `QdrantDB.clear_empty_collections`: enumerate via `list_collections`,
then run the deletion loop. -/
def clear_empty_collections (s : ClientState) :
    List Request × Except String (Nat × ClientState) :=
  let names := (list_collections s).1
  let r := clearLoop names s
  ((list_collections s).2 ++ r.1, r.2)

def isRecreateReq : Request → Bool
  | Request.recreateCollection _ _ => true
  | _ => false

def isDeleteReq : Request → Bool
  | Request.deleteCollection _ => true
  | _ => false

theorem listReqs_shape (s : ClientState) :
    ∀ r ∈ (list_collections s).2,
      isRecreateReq r = false ∧ isDeleteReq r = false := by
  intro r hr
  have hr2 : r = Request.getCollections
      ∨ ∃ c ∈ s.collections, Request.getCollection c.1 = r := by
    simpa [list_collections] using hr
  rcases hr2 with rfl | ⟨c, _, rfl⟩
  · exact ⟨rfl, rfl⟩
  · exact ⟨rfl, rfl⟩

theorem createRest_eq (db2 : QdrantDB) (s : ClientState) (name : String)
    (reqs0 : List Request) :
    createRest db2 s name reqs0
      = (reqs0 ++ [Request.recreateCollection name db2.embedding_dim,
            Request.getCollection name],
          [], Except.ok (db2, recreateColl s name db2.embedding_dim)) := by
  simp [createRest, getColl_recreate, pointsCount]

theorem create_collection_skip_eq {db : QdrantDB} {s : ClientState}
    {name : String} {info : CollectionInfo} (hg : getColl s name = some info)
    (hgreen : info.status = CollectionStatus.green)
    (hpos : 0 < pointsCount info) :
    create_collection db s name
      = ((list_collections s).2 ++ [Request.getCollection name],
          ["Non-empty Collection " ++ name ++ " already exists"],
          Except.ok (withName db name, s)) := by
  have hmem : name ∈ (list_collections s).1 := mem_listed_of_getColl hg hpos
  simp [create_collection, hmem, hg, hgreen, hpos]

theorem create_collection_recreate_of_not_mem {db : QdrantDB}
    {s : ClientState} {name : String}
    (hmem : name ∉ (list_collections s).1) :
    create_collection db s name
      = ((list_collections s).2
            ++ [Request.recreateCollection name db.embedding_dim,
              Request.getCollection name],
          [], Except.ok (withName db name,
            recreateColl s name db.embedding_dim)) := by
  simp [create_collection, hmem, createRest_eq, withName]

theorem create_collection_recreate_of_cond_false {db : QdrantDB}
    {s : ClientState} {name : String} {info : CollectionInfo}
    (hmem : name ∈ (list_collections s).1) (hg : getColl s name = some info)
    (hcond : ¬(info.status = CollectionStatus.green ∧ 0 < pointsCount info)) :
    create_collection db s name
      = (((list_collections s).2 ++ [Request.getCollection name])
            ++ [Request.recreateCollection name db.embedding_dim,
              Request.getCollection name],
          [], Except.ok (withName db name,
            recreateColl s name db.embedding_dim)) := by
  simp [create_collection, hmem, hg, hcond, createRest_eq, withName]

theorem countP_recreate_listReqs (s : ClientState) :
    ((list_collections s).2).countP isRecreateReq = 0 :=
  List.countP_eq_zero.mpr (by
    intro r hr
    simp [(listReqs_shape s r hr).1])

/-- C2 (amended): `create_collection` skips recreation exactly when the
service holds a collection under that name with `GREEN` status and a
positive point count — the vector dimensionality is never examined — and
in that case it logs a warning and returns successfully with the service
state untouched. -/
theorem create_collection_skip_iff (db : QdrantDB) (s : ClientState)
    (name : String) :
    ((create_collection db s name).1.countP isRecreateReq = 0
        ↔ ∃ info, getColl s name = some info
            ∧ info.status = CollectionStatus.green ∧ 0 < pointsCount info)
      ∧ ∀ info, getColl s name = some info
          → info.status = CollectionStatus.green → 0 < pointsCount info
          → (create_collection db s name).2.1
              = ["Non-empty Collection " ++ name ++ " already exists"]
            ∧ (create_collection db s name).2.2
              = Except.ok (withName db name, s) := by
  constructor
  · constructor
    · intro h0
      by_cases hmem : name ∈ (list_collections s).1
      · cases hg : getColl s name with
        | none => exact absurd hg (getColl_ne_none_of_mem_listed hmem)
        | some info =>
          by_cases hcond : info.status = CollectionStatus.green
              ∧ 0 < pointsCount info
          · exact ⟨info, rfl, hcond.1, hcond.2⟩
          · exfalso
            rw [create_collection_recreate_of_cond_false hmem hg hcond] at h0
            simp [List.countP_append, countP_recreate_listReqs,
              List.countP_cons, isRecreateReq] at h0
      · exfalso
        rw [create_collection_recreate_of_not_mem hmem] at h0
        simp [List.countP_append, countP_recreate_listReqs,
          List.countP_cons, isRecreateReq] at h0
    · rintro ⟨info, hg, hgreen, hpos⟩
      rw [create_collection_skip_eq hg hgreen hpos]
      simp [List.countP_append, countP_recreate_listReqs,
        List.countP_cons, isRecreateReq]
  · intro info hg hgreen hpos
    rw [create_collection_skip_eq hg hgreen hpos]
    exact ⟨rfl, rfl⟩

/-- C9: both `create_collection` and `set_collection` record the given
name as the active collection name (`config.collection_name`), on every
path — including the one where creation is skipped — and always return
without raising. -/
theorem create_and_set_record_name (db : QdrantDB) (s : ClientState)
    (name : String) :
    (∃ s2, (create_collection db s name).2.2
        = Except.ok (withName db name, s2))
      ∧ (∃ s2, (set_collection db s name).2.2
          = Except.ok (withName db name, s2))
      ∧ (withName db name).config.collection_name = some name := by
  have hcre : ∀ db2 : QdrantDB, ∃ s2,
      (create_collection db2 s name).2.2 = Except.ok (withName db2 name, s2) := by
    intro db2
    by_cases hmem : name ∈ (list_collections s).1
    · cases hg : getColl s name with
      | none => exact absurd hg (getColl_ne_none_of_mem_listed hmem)
      | some info =>
        by_cases hcond : info.status = CollectionStatus.green
            ∧ 0 < pointsCount info
        · exact ⟨s, by rw [create_collection_skip_eq hg hcond.1 hcond.2]⟩
        · exact ⟨_, by rw [create_collection_recreate_of_cond_false hmem hg hcond]⟩
    · exact ⟨_, by rw [create_collection_recreate_of_not_mem hmem]⟩
  refine ⟨hcre db, ?_, rfl⟩
  by_cases hmem : name ∈ (list_collections s).1
  · exact ⟨s, by simp [set_collection, hmem]⟩
  · rcases hcre (withName db name) with ⟨s2, h2⟩
    refine ⟨s2, ?_⟩
    have hid : withName (withName db name) name = withName db name := rfl
    rw [hid] at h2
    simpa [set_collection, hmem] using h2

def demoPoint : StoredPoint := ⟨PointId.int 1, [5, 5], ⟨"hello", "1"⟩⟩

def demoInfo : CollectionInfo := ⟨CollectionStatus.green, 2, [demoPoint]⟩

def demoDB : QdrantDB where
  config := { collection_name := none, batch_size := 10 }
  embedding_fn := fun l => l.map (fun _ => ([] : Vec))
  embedding_dim := 3

def demoState : ClientState where
  collections := [("c", demoInfo)]
  ann := fun _ => []

/-- C2 (counterexample): the service holds a non-empty `GREEN` collection
"c" of vector dimensionality 2 while the adapter's embedding dimension is
3; the claim demands recreation (the dimensionality does not match), yet
`create_collection` issues no `recreate_collection` request and takes the
warning path. -/
theorem create_collection_dim_mismatch_cex :
    getColl demoState "c" = some demoInfo
      ∧ demoInfo.vectorSize ≠ demoDB.embedding_dim
      ∧ 0 < pointsCount demoInfo
      ∧ demoInfo.status = CollectionStatus.green
      ∧ (create_collection demoDB demoState "c").1.countP isRecreateReq = 0
      ∧ (create_collection demoDB demoState "c").2.1
          = ["Non-empty Collection c already exists"] := by
  decide

theorem find?_of_nodup_mem {l : List (String × CollectionInfo)}
    {e : String × CollectionInfo} (hnd : (l.map Prod.fst).Nodup)
    (he : e ∈ l) : l.find? (fun x => x.1 == e.1) = some e := by
  induction l with
  | nil => cases he
  | cons a t ih =>
    simp only [List.map_cons, List.nodup_cons] at hnd
    rcases List.mem_cons.mp he with rfl | hmem
    · simp [List.find?]
    · have hne : a.1 ≠ e.1 :=
        fun hh => hnd.1 (hh ▸ List.mem_map_of_mem Prod.fst hmem)
      have hb : (a.1 == e.1) = false := beq_eq_false_iff_ne.mpr hne
      simp [List.find?, hb, ih hnd.2 hmem]

theorem getColl_pos_of_mem_listed_nodup {s : ClientState}
    (hnd : (s.collections.map Prod.fst).Nodup) {name : String}
    (h : name ∈ (list_collections s).1) :
    ∃ info, getColl s name = some info ∧ 0 < pointsCount info := by
  rcases (mem_list_collections s name).mp h with ⟨e, hel, hfst, hpos⟩
  refine ⟨e.2, ?_, hpos⟩
  unfold getColl
  subst hfst
  rw [find?_of_nodup_mem hnd hel]
  rfl

theorem clearLoop_no_deletes (names : List String) (s : ClientState)
    (h : ∀ name ∈ names,
      ∃ info, getColl s name = some info ∧ 0 < pointsCount info) :
    clearLoop names s
      = (names.map Request.getCollection, Except.ok (0, s)) := by
  induction names with
  | nil => rfl
  | cons name rest ih =>
    rcases h name (List.mem_cons_self _ _) with ⟨info, hg, hpos⟩
    have hz : ¬pointsCount info = 0 := by omega
    have hrest := fun n hn => h n (List.mem_cons_of_mem _ hn)
    simp [clearLoop, hg, hz, ih hrest]

/-- C5: `clear_empty_collections` deletes every enumerated collection
whose point count is zero (vacuously — the enumeration via
`list_collections` only yields collections with a positive count, as the
last conjunct makes explicit), leaves the service state untouched, and
returns the number of deletions it performed (zero, matching the zero
`delete_collection` requests in its trace). -/
theorem clear_empty_collections_spec (s : ClientState)
    (hnd : (s.collections.map Prod.fst).Nodup) :
    clear_empty_collections s
        = ((list_collections s).2
              ++ (list_collections s).1.map Request.getCollection,
            Except.ok (0, s))
      ∧ ((list_collections s).2
            ++ (list_collections s).1.map Request.getCollection).countP
          isDeleteReq = 0
      ∧ ∀ name ∈ (list_collections s).1,
          ∃ info, getColl s name = some info ∧ 0 < pointsCount info := by
  have hall : ∀ name ∈ (list_collections s).1,
      ∃ info, getColl s name = some info ∧ 0 < pointsCount info :=
    fun name hn => getColl_pos_of_mem_listed_nodup hnd hn
  refine ⟨?_, ?_, hall⟩
  · simp [clear_empty_collections, clearLoop_no_deletes _ _ hall]
  · rw [List.countP_append]
    have h1 : ((list_collections s).2).countP isDeleteReq = 0 :=
      List.countP_eq_zero.mpr (by
        intro r hr
        simp [(listReqs_shape s r hr).2])
    have h2 : ((list_collections s).1.map Request.getCollection).countP
        isDeleteReq = 0 :=
      List.countP_eq_zero.mpr (by
        intro r hr
        rcases List.mem_map.mp hr with ⟨n, _, rfl⟩
        simp [isDeleteReq])
    omega

def demoState2 : ClientState where
  collections := [("a", demoInfo), ("b", ⟨CollectionStatus.green, 2, []⟩)]
  ann := fun _ => []

theorem clear_empty_collections_spec_witness :
    clear_empty_collections demoState2
        = ((list_collections demoState2).2
              ++ (list_collections demoState2).1.map Request.getCollection,
            Except.ok (0, demoState2))
      ∧ ((list_collections demoState2).2
            ++ (list_collections demoState2).1.map Request.getCollection).countP
          isDeleteReq = 0
      ∧ ∀ name ∈ (list_collections demoState2).1,
          ∃ info, getColl demoState2 name = some info
            ∧ 0 < pointsCount info :=
  clear_empty_collections_spec demoState2 (by decide)

/-- Python slice `l[j*b : j*b + b]`: the `j`-th chunk of size `b`. -/
def slice {α : Type} (b j : Nat) (l : List α) : List α := (l.drop (j * b)).take b

/-- The number of iterations of `for i in range(0, n, b)`, i.e. the number
of chunks of size `b` covering a list of length `n`. -/
def numChunks (b n : Nat) : Nat := (n + b - 1) / b

/-- The upsert requests issued by the batching loop of `add_documents`:
`for i in range(0, len(ids), b)` sends `ids[i:i+b]`, `vectors[i:i+b]`,
`payloads[i:i+b]`; here the iteration counter `j` stands for `i / b`. -/
def upsertBatches (cname : String) (b : Nat) (ids : List String)
    (vecs : List Vec) (docs : List Document) : List UpsertReq :=
  (List.range (numChunks b ids.length)).map
    (fun j => ⟨cname, slice b j ids, slice b j vecs, slice b j docs⟩)

/-- Coarse model of the service-side effect of one upsert: the points are
appended to the addressed collection (id collision handling is internal
to the external service and not observed by any adapter method modelled
here). -/
def upsertPoints (u : UpsertReq) : List StoredPoint :=
  (u.ids.zip (u.vectors.zip u.payloads)).map
    (fun x => ⟨PointId.str x.1, x.2.1, x.2.2⟩)

def applyUpsert (s : ClientState) (u : UpsertReq) : ClientState :=
  { s with collections := s.collections.map (fun e =>
      if e.1 = u.collection then
        (e.1, { e.2 with points := e.2.points ++ upsertPoints u })
      else e) }

/-- `QdrantDB.add_documents`: return at once on an empty list; compute the
embeddings; raise `ValueError` when no collection name is set; then upsert
in chunks of `batch_size` (Python's `range` raises `ValueError` on a zero
step). -/
def add_documents (db : QdrantDB) (s : ClientState)
    (documents : List Document) : List Request × Except String ClientState :=
  if documents.length = 0 then ([], Except.ok s)
  else
    let embedding_vecs := db.embedding_fn (documents.map Document.content)
    match db.config.collection_name with
    | none => ([], Except.error "No collection name set, cannot ingest docs")
    | some cname =>
      let ids := documents.map Document.ident
      let b := db.config.batch_size
      if b = 0 then ([], Except.error "range() arg 3 must not be zero")
      else
        let batches := upsertBatches cname b ids embedding_vecs documents
        (batches.map Request.upsert, Except.ok (batches.foldl applyUpsert s))

/-- C10: on the empty document list, `add_documents` returns at once with
no error and an empty request trace, whatever the configuration — in
particular even when `collection_name` is unset. -/
theorem add_documents_empty (db : QdrantDB) (s : ClientState) :
    add_documents db s [] = ([], Except.ok s) := rfl

theorem numChunks_succ (b n : Nat) (hb : 0 < b) (hn : 0 < n) :
    numChunks b n = numChunks b (n - b) + 1 := by
  unfold numChunks
  rcases le_or_lt n b with h | h
  · have h1 : n - b = 0 := by omega
    rw [h1]
    have e1 : n + b - 1 = (n - 1) + b := by omega
    rw [e1, Nat.add_div_right _ hb]
    have e2 : (n - 1) / b = 0 := Nat.div_eq_of_lt (by omega)
    have e3 : (0 + b - 1) / b = 0 := Nat.div_eq_of_lt (by omega)
    omega
  · have e1 : n + b - 1 = (n - 1) + b := by omega
    have e2 : n - b + b - 1 = (n - 1 - b) + b := by omega
    rw [e1, e2, Nat.add_div_right _ hb, Nat.add_div_right _ hb]
    have e4 := Nat.div_eq_sub_div hb (show b ≤ n - 1 by omega)
    omega

theorem join_slices {α : Type} (b : Nat) (hb : 0 < b) (l : List α) :
    ((List.range (numChunks b l.length)).map (fun j => slice b j l)).flatten
      = l := by
  by_cases hl : l = []
  · subst hl
    have h0 : numChunks b 0 = 0 := by
      unfold numChunks
      exact Nat.div_eq_of_lt (by omega)
    simp [h0]
  · have hlen : 0 < l.length := List.length_pos.mpr hl
    have hih := join_slices b hb (l.drop b)
    have hlen2 : (l.drop b).length = l.length - b := List.length_drop _ _
    rw [numChunks_succ b l.length hb hlen, List.range_succ_eq_map]
    rw [List.map_cons, List.map_map]
    have htail : (List.range (numChunks b (l.length - b))).map
        ((fun j => slice b j l) ∘ (fun j => j + 1))
        = (List.range (numChunks b (l.drop b).length)).map
            (fun j => slice b j (l.drop b)) := by
      rw [hlen2]
      apply List.map_congr_left
      intro j _
      show slice b (j + 1) l = slice b j (l.drop b)
      unfold slice
      rw [List.drop_drop]
      congr 2
      ring
    rw [htail]
    have hhd : slice b 0 l = l.take b := by
      unfold slice
      simp
    simp only [List.flatten_cons, hih, hhd, List.take_append_drop]
termination_by l.length
decreasing_by
  simp only [List.length_drop]
  omega

theorem join_slices_of_length {α : Type} (b : Nat) (hb : 0 < b) {n : Nat}
    (l : List α) (hl : l.length = n) :
    ((List.range (numChunks b n)).map (fun j => slice b j l)).flatten = l := by
  subst hl
  exact join_slices b hb l

theorem lt_of_lt_numChunks {b n j : Nat} (hb : 0 < b)
    (hj : j < numChunks b n) : j * b < n := by
  unfold numChunks at hj
  have h1 : j + 1 ≤ (n + b - 1) / b := hj
  have h2 : (j + 1) * b ≤ n + b - 1 := (Nat.le_div_iff_mul_le hb).mp h1
  have h3 : 0 < n := by
    by_contra hn
    have hn0 : n = 0 := by omega
    subst hn0
    have hz : (0 + b - 1) / b = 0 := Nat.div_eq_of_lt (by omega)
    omega
  have h4 : (j + 1) * b = j * b + b := by ring
  omega

theorem slice_length_le {α : Type} (b j : Nat) (l : List α) :
    (slice b j l).length ≤ b := by
  simp only [slice, List.length_take]
  omega

theorem slice_length_pos {α : Type} {b j : Nat} {l : List α} (hb : 0 < b)
    (hj : j < numChunks b l.length) : 0 < (slice b j l).length := by
  have h1 := lt_of_lt_numChunks hb hj
  simp only [slice, List.length_take, List.length_drop]
  rw [Nat.lt_min]
  exact ⟨hb, by omega⟩

theorem slice_length_full {α : Type} {b j : Nat} {l : List α} (hb : 0 < b)
    (hj : j + 1 < numChunks b l.length) : (slice b j l).length = b := by
  have h1 : (j + 1) * b < l.length := lt_of_lt_numChunks hb hj
  have h2 : (j + 1) * b = j * b + b := by ring
  simp only [slice, List.length_take, List.length_drop]
  apply Nat.min_eq_left
  omega

/-- C3: with a collection selected, a positive batch size and one
embedding per document, `add_documents` issues exactly one upsert per
contiguous chunk `[j*b, j*b+b)` of the input, in input order; the ids,
vectors and payloads sent across all chunks, concatenated, are exactly
the documents' ids, embeddings and payloads in order (so each document is
sent exactly once); every chunk is non-empty with at most `batch_size`
elements, and every chunk but the last has exactly `batch_size`; and the
call returns without raising. -/
theorem add_documents_chunking (db : QdrantDB) (s : ClientState)
    (documents : List Document) (cname : String)
    (hc : db.config.collection_name = some cname)
    (hb : 0 < db.config.batch_size)
    (hd : documents ≠ [])
    (hlen : (db.embedding_fn (documents.map Document.content)).length
      = documents.length) :
    (add_documents db s documents).1
        = (upsertBatches cname db.config.batch_size
            (documents.map Document.ident)
            (db.embedding_fn (documents.map Document.content))
            documents).map Request.upsert
      ∧ (∃ s2, (add_documents db s documents).2 = Except.ok s2)
      ∧ ((upsertBatches cname db.config.batch_size
            (documents.map Document.ident)
            (db.embedding_fn (documents.map Document.content))
            documents).map UpsertReq.ids).flatten
          = documents.map Document.ident
      ∧ ((upsertBatches cname db.config.batch_size
            (documents.map Document.ident)
            (db.embedding_fn (documents.map Document.content))
            documents).map UpsertReq.vectors).flatten
          = db.embedding_fn (documents.map Document.content)
      ∧ ((upsertBatches cname db.config.batch_size
            (documents.map Document.ident)
            (db.embedding_fn (documents.map Document.content))
            documents).map UpsertReq.payloads).flatten
          = documents
      ∧ (∀ u ∈ upsertBatches cname db.config.batch_size
            (documents.map Document.ident)
            (db.embedding_fn (documents.map Document.content))
            documents,
          u.collection = cname ∧ 0 < u.ids.length
            ∧ u.ids.length ≤ db.config.batch_size)
      ∧ ∀ j, j + 1 < numChunks db.config.batch_size documents.length →
          (slice db.config.batch_size j
            (documents.map Document.ident)).length = db.config.batch_size := by
  have hne : ¬documents.length = 0 := by
    simpa [List.length_eq_zero] using hd
  have hbne : ¬db.config.batch_size = 0 := by omega
  have heq : add_documents db s documents
      = ((upsertBatches cname db.config.batch_size
            (documents.map Document.ident)
            (db.embedding_fn (documents.map Document.content))
            documents).map Request.upsert,
          Except.ok ((upsertBatches cname db.config.batch_size
            (documents.map Document.ident)
            (db.embedding_fn (documents.map Document.content))
            documents).foldl applyUpsert s)) := by
    simp [add_documents, hne, hc, hbne]
  have hidlen : (documents.map Document.ident).length = documents.length :=
    List.length_map _ _
  refine ⟨by rw [heq], ⟨_, by rw [heq]⟩, ?_, ?_, ?_, ?_, ?_⟩
  · rw [upsertBatches, List.map_map]
    exact join_slices_of_length _ hb _ rfl
  · rw [upsertBatches, List.map_map]
    rw [hidlen]
    exact join_slices_of_length _ hb _ hlen
  · rw [upsertBatches, List.map_map]
    rw [hidlen]
    exact join_slices_of_length _ hb _ rfl
  · intro u hu
    rcases List.mem_map.mp hu with ⟨j, hj, rfl⟩
    have hjlt : j < numChunks db.config.batch_size
        (documents.map Document.ident).length := List.mem_range.mp hj
    exact ⟨rfl, slice_length_pos hb hjlt, slice_length_le _ _ _⟩
  · intro j hj
    rw [← hidlen] at hj
    exact slice_length_full hb hj

def demoDoc1 : Document := ⟨"alpha", "1"⟩

def demoDoc2 : Document := ⟨"beta", "two"⟩

def demoDoc3 : Document := ⟨"gamma", "3"⟩

def demoDB3 : QdrantDB where
  config := { collection_name := some "c", batch_size := 2 }
  embedding_fn := fun l => l.map (fun _ => [9])
  embedding_dim := 1

theorem add_documents_chunking_witness :
    (add_documents demoDB3 demoState [demoDoc1, demoDoc2, demoDoc3]).1
        = (upsertBatches "c" demoDB3.config.batch_size
            ([demoDoc1, demoDoc2, demoDoc3].map Document.ident)
            (demoDB3.embedding_fn
              ([demoDoc1, demoDoc2, demoDoc3].map Document.content))
            [demoDoc1, demoDoc2, demoDoc3]).map Request.upsert
      ∧ (∃ s2, (add_documents demoDB3 demoState
          [demoDoc1, demoDoc2, demoDoc3]).2 = Except.ok s2)
      ∧ ((upsertBatches "c" demoDB3.config.batch_size
            ([demoDoc1, demoDoc2, demoDoc3].map Document.ident)
            (demoDB3.embedding_fn
              ([demoDoc1, demoDoc2, demoDoc3].map Document.content))
            [demoDoc1, demoDoc2, demoDoc3]).map UpsertReq.ids).flatten
          = [demoDoc1, demoDoc2, demoDoc3].map Document.ident
      ∧ ((upsertBatches "c" demoDB3.config.batch_size
            ([demoDoc1, demoDoc2, demoDoc3].map Document.ident)
            (demoDB3.embedding_fn
              ([demoDoc1, demoDoc2, demoDoc3].map Document.content))
            [demoDoc1, demoDoc2, demoDoc3]).map UpsertReq.vectors).flatten
          = demoDB3.embedding_fn
              ([demoDoc1, demoDoc2, demoDoc3].map Document.content)
      ∧ ((upsertBatches "c" demoDB3.config.batch_size
            ([demoDoc1, demoDoc2, demoDoc3].map Document.ident)
            (demoDB3.embedding_fn
              ([demoDoc1, demoDoc2, demoDoc3].map Document.content))
            [demoDoc1, demoDoc2, demoDoc3]).map UpsertReq.payloads).flatten
          = [demoDoc1, demoDoc2, demoDoc3]
      ∧ (∀ u ∈ upsertBatches "c" demoDB3.config.batch_size
            ([demoDoc1, demoDoc2, demoDoc3].map Document.ident)
            (demoDB3.embedding_fn
              ([demoDoc1, demoDoc2, demoDoc3].map Document.content))
            [demoDoc1, demoDoc2, demoDoc3],
          u.collection = "c" ∧ 0 < u.ids.length
            ∧ u.ids.length ≤ demoDB3.config.batch_size)
      ∧ ∀ j, j + 1 < numChunks demoDB3.config.batch_size
            [demoDoc1, demoDoc2, demoDoc3].length →
          (slice demoDB3.config.batch_size j
              ([demoDoc1, demoDoc2, demoDoc3].map Document.ident)).length
            = demoDB3.config.batch_size :=
  add_documents_chunking demoDB3 demoState [demoDoc1, demoDoc2, demoDoc3]
    "c" rfl (by decide) (by decide) rfl

/-- Digit scanner of Python's `int(str)`: a non-empty digit run in which a
single underscore may stand between two digits. `prevDigit` records
whether the previous character was a digit (initially false). -/
def pyDigitsCore : List Char → Nat → Bool → Option Nat
  | [], acc, prevDigit => if prevDigit then some acc else none
  | c :: cs, acc, prevDigit =>
    if c.isDigit then pyDigitsCore cs (acc * 10 + (c.toNat - 48)) true
    else if c = '_' then
      if prevDigit then pyDigitsCore cs acc false else none
    else none

/-- Python's `int(str)`: surrounding whitespace is stripped, an optional
single sign precedes the digits; `none` models the `ValueError`. -/
def pyParseInt (s : String) : Option Int :=
  match s.trim.data with
  | '+' :: cs => (pyDigitsCore cs 0 false).map (fun n => (n : Int))
  | '-' :: cs => (pyDigitsCore cs 0 false).map (fun n => -(n : Int))
  | cs => (pyDigitsCore cs 0 false).map (fun n => (n : Int))

/-- `QdrantDB._to_int_or_uuid`: `int(id)` when that parses, otherwise the
identifier is passed through unchanged. -/
def to_int_or_uuid (id : String) : PointId :=
  match pyParseInt id with
  | some n => PointId.int n
  | none => PointId.str id

/-- Model of `client.retrieve`: the stored points of the addressed
collection whose ids are among the requested keys. -/
def retrievePoints (s : ClientState) (cname : String)
    (pids : List PointId) : List StoredPoint :=
  match getColl s cname with
  | none => []
  | some info => info.points.filter (fun p => p.pid ∈ pids)

/-- `QdrantDB.get_documents_by_ids`: raise `ValueError` when no collection
name is set, else retrieve by the coerced ids and return the payloads. -/
def get_documents_by_ids (db : QdrantDB) (s : ClientState)
    (ids : List String) : List Request × Except String (List Document) :=
  match db.config.collection_name with
  | none => ([], Except.error "No collection name set, cannot retrieve docs")
  | some cname =>
    let pids := ids.map to_int_or_uuid
    let records := retrievePoints s cname pids
    ([Request.retrieve cname pids], Except.ok (records.map StoredPoint.payload))

/-- C6: with a collection selected, `get_documents_by_ids` issues one
retrieve request whose keys are the input identifiers, each coerced by
`_to_int_or_uuid`: an identifier accepted by Python's `int` is sent as
that integer, any other is sent unchanged as a string key; the call
returns without raising. -/
theorem get_documents_by_ids_coercion (db : QdrantDB) (s : ClientState)
    (ids : List String) (cname : String)
    (hc : db.config.collection_name = some cname) :
    (get_documents_by_ids db s ids).1
        = [Request.retrieve cname (ids.map to_int_or_uuid)]
      ∧ (∀ i : String, ∀ n : Int, pyParseInt i = some n →
          to_int_or_uuid i = PointId.int n)
      ∧ (∀ i : String, pyParseInt i = none → to_int_or_uuid i = PointId.str i)
      ∧ ∃ docs, (get_documents_by_ids db s ids).2 = Except.ok docs := by
  refine ⟨?_, ?_, ?_, ?_⟩
  · simp [get_documents_by_ids, hc]
  · intro i n h
    simp [to_int_or_uuid, h]
  · intro i h
    simp [to_int_or_uuid, h]
  · refine ⟨(retrievePoints s cname (ids.map to_int_or_uuid)).map
      StoredPoint.payload, ?_⟩
    simp [get_documents_by_ids, hc]

theorem get_documents_by_ids_coercion_witness :
    (get_documents_by_ids demoDB3 demoState ["17", "a-b-c"]).1
        = [Request.retrieve "c" (["17", "a-b-c"].map to_int_or_uuid)]
      ∧ (∀ i : String, ∀ n : Int, pyParseInt i = some n →
          to_int_or_uuid i = PointId.int n)
      ∧ (∀ i : String, pyParseInt i = none → to_int_or_uuid i = PointId.str i)
      ∧ ∃ docs, (get_documents_by_ids demoDB3 demoState ["17", "a-b-c"]).2
          = Except.ok docs :=
  get_documents_by_ids_coercion demoDB3 demoState ["17", "a-b-c"] "c" rfl

/-- The filter passed to the search: `Filter()` when `where` is `None`,
`Filter.from_json(where)` otherwise. -/
def qfilterOf : Option String → QFilter
  | none => QFilter.empty
  | some j => QFilter.fromJson j

/-- `QdrantDB.similar_texts_with_scores`: embed the query (indexing `[0]`
into the embedding list — an `IndexError` if it is empty), build the
filter, raise `ValueError` when no collection name is set, then search
with the given limit and `SearchParams(hnsw_ef=128, exact=False)`; warn
and return `[]` on no matches, else pair the match payloads with their
scores.  (The source's `if match is not None` guard never drops a list
element and is not represented.) -/
def similar_texts_with_scores (db : QdrantDB) (s : ClientState)
    (text : String) (k : Nat) (whereJson : Option String) :
    List Request × List String × Except String (List (Document × Int)) :=
  match db.embedding_fn [text] with
  | [] => ([], [], Except.error "list index out of range")
  | embedding :: _ =>
    let filt := qfilterOf whereJson
    match db.config.collection_name with
    | none => ([], [], Except.error "No collection name set, cannot search")
    | some cname =>
      let req : SearchReq := ⟨cname, embedding, filt, k, 128, false⟩
      let search_result := clientSearch s req
      let scores := search_result.map ScoredPoint.score
      let docs := search_result.map ScoredPoint.payload
      if docs.length = 0 then
        ([Request.search req], ["No matches found for " ++ text],
          Except.ok [])
      else
        ([Request.search req], [], Except.ok (docs.zip scores))

theorem zip_map_pair {α β γ : Type} (f : α → β) (g : α → γ) (l : List α) :
    (l.map f).zip (l.map g) = l.map (fun x => (f x, g x)) := by
  induction l with
  | nil => rfl
  | cons a t ih => simp [ih]

/-- C7: with a collection selected and a non-empty embedding answer,
`similar_texts_with_scores` issues exactly one search request with limit
`k`, `hnsw_ef = 128`, `exact = false` and the caller's filter; when the
search yields no matches it logs a warning and returns the empty list,
otherwise it returns one (document, score) pair per match — and since the
service honours the limit, at most `k` pairs. -/
theorem similar_texts_search_spec (db : QdrantDB) (s : ClientState)
    (text : String) (k : Nat) (whereJson : Option String) (cname : String)
    (e : Vec) (rest : List Vec)
    (hemb : db.embedding_fn [text] = e :: rest)
    (hc : db.config.collection_name = some cname) :
    similar_texts_with_scores db s text k whereJson
        = ([Request.search ⟨cname, e, qfilterOf whereJson, k, 128, false⟩],
            if clientSearch s ⟨cname, e, qfilterOf whereJson, k, 128, false⟩
                = [] then
              ["No matches found for " ++ text]
            else [],
            Except.ok ((clientSearch s
                ⟨cname, e, qfilterOf whereJson, k, 128, false⟩).map
              (fun m => (m.payload, m.score))))
      ∧ (clientSearch s
          ⟨cname, e, qfilterOf whereJson, k, 128, false⟩).length ≤ k := by
  constructor
  · by_cases h0 : clientSearch s
        ⟨cname, e, qfilterOf whereJson, k, 128, false⟩ = []
    · simp [similar_texts_with_scores, hemb, hc, h0]
    · have hlen : ¬(clientSearch s
          ⟨cname, e, qfilterOf whereJson, k, 128, false⟩).length = 0 := by
        simpa [List.length_eq_zero] using h0
      simp [similar_texts_with_scores, hemb, hc, h0, hlen, zip_map_pair]
  · exact List.length_take_le _ _

/-- A service state whose ANN oracle reports two matches for every query. -/
def demoStateAnn : ClientState where
  collections := [("c", demoInfo)]
  ann := fun _ => [⟨⟨"first", "9"⟩, 5⟩, ⟨⟨"second", "10"⟩, 4⟩]

theorem similar_texts_search_spec_witness :
    similar_texts_with_scores demoDB3 demoStateAnn "query" 1 none
        = ([Request.search ⟨"c", [9], qfilterOf none, 1, 128, false⟩],
            if clientSearch demoStateAnn
                ⟨"c", [9], qfilterOf none, 1, 128, false⟩ = [] then
              ["No matches found for query"]
            else [],
            Except.ok ((clientSearch demoStateAnn
                ⟨"c", [9], qfilterOf none, 1, 128, false⟩).map
              (fun m => (m.payload, m.score))))
      ∧ (clientSearch demoStateAnn
          ⟨"c", [9], qfilterOf none, 1, 128, false⟩).length ≤ 1 :=
  similar_texts_search_spec demoDB3 demoStateAnn "query" 1 none "c" [9] []
    rfl rfl

def exceptOk {ε α : Type} : Except ε α → Bool
  | Except.ok _ => true
  | Except.error _ => false

/-- C1 (counterexample): with no collection name set, `add_documents`
called on the empty document list does not fail at all — it returns
successfully with an empty request trace — refuting "every call ...
fails immediately with a descriptive error". -/
theorem add_documents_empty_no_failure_cex :
    demoDB.config.collection_name = none
      ∧ add_documents demoDB demoState [] = ([], Except.ok demoState) :=
  ⟨rfl, rfl⟩

/-- C1 (amended): with no collection name set, `get_documents_by_ids` and
`similar_texts_with_scores` (whose embedding call returns a vector for
the query), as well as `add_documents` on a non-empty document list, fail
with the descriptive `ValueError` naming the unset collection and issue
no request at all to the external client; only `add_documents` on the
empty list returns successfully instead (see the counterexample). -/
theorem ops_fail_fast_without_collection (db : QdrantDB) (s : ClientState)
    (documents : List Document) (ids : List String) (text : String)
    (k : Nat) (whereJson : Option String)
    (hname : db.config.collection_name = none)
    (hdocs : documents ≠ [])
    (hemb : db.embedding_fn [text] ≠ []) :
    add_documents db s documents
        = ([], Except.error "No collection name set, cannot ingest docs")
      ∧ get_documents_by_ids db s ids
        = ([], Except.error "No collection name set, cannot retrieve docs")
      ∧ similar_texts_with_scores db s text k whereJson
        = ([], [], Except.error "No collection name set, cannot search") := by
  have hne : ¬documents.length = 0 := by
    simpa [List.length_eq_zero] using hdocs
  refine ⟨?_, ?_, ?_⟩
  · simp [add_documents, hne, hname]
  · simp [get_documents_by_ids, hname]
  · cases hfe : db.embedding_fn [text] with
    | nil => exact absurd hfe hemb
    | cons e rest => simp [similar_texts_with_scores, hfe, hname]

theorem ops_fail_fast_without_collection_witness :
    add_documents demoDB demoState [demoDoc1]
        = ([], Except.error "No collection name set, cannot ingest docs")
      ∧ get_documents_by_ids demoDB demoState ["1"]
        = ([], Except.error "No collection name set, cannot retrieve docs")
      ∧ similar_texts_with_scores demoDB demoState "q" 1 none
        = ([], [], Except.error "No collection name set, cannot search") :=
  ops_fail_fast_without_collection demoDB demoState [demoDoc1] ["1"] "q" 1
    none rfl (by decide) (by decide)

def demoDB8 : QdrantDB where
  config := { collection_name := some "", batch_size := 2 }
  embedding_fn := fun l => l.map (fun _ => [7])
  embedding_dim := 1

/-- C8 (counterexample): with the collection name equal to the empty
string, `add_documents` raises nothing and issues an upsert request
addressed to the empty-named collection — the `is None` check does not
reject the empty string. -/
theorem empty_name_not_rejected_cex :
    demoDB8.config.collection_name = some ""
      ∧ (add_documents demoDB8 demoState [demoDoc1]).1
          = [Request.upsert ⟨"", ["1"], [[7]], [demoDoc1]⟩]
      ∧ exceptOk (add_documents demoDB8 demoState [demoDoc1]).2 = true := by
  decide

/-- C8 (amended): the document operations check only that
`config.collection_name` is not `None` — the empty string is accepted.
For non-empty input (and, for search, an embedding answer), ingestion
with a positive batch size, retrieval and search raise exactly when the
collection name is unset, and in that case they issue no request. -/
theorem ops_error_iff_name_unset (db : QdrantDB) (s : ClientState)
    (documents : List Document) (ids : List String) (text : String)
    (k : Nat) (whereJson : Option String)
    (hdocs : documents ≠ [])
    (hb : 0 < db.config.batch_size)
    (hemb : db.embedding_fn [text] ≠ []) :
    (exceptOk (add_documents db s documents).2 = false
        ↔ db.config.collection_name = none)
      ∧ (exceptOk (get_documents_by_ids db s ids).2 = false
        ↔ db.config.collection_name = none)
      ∧ (exceptOk (similar_texts_with_scores db s text k whereJson).2.2
          = false
        ↔ db.config.collection_name = none)
      ∧ (db.config.collection_name = none →
          (add_documents db s documents).1 = []
            ∧ (get_documents_by_ids db s ids).1 = []
            ∧ (similar_texts_with_scores db s text k whereJson).1 = []) := by
  have hne : ¬documents.length = 0 := by
    simpa [List.length_eq_zero] using hdocs
  have hbne : ¬db.config.batch_size = 0 := by omega
  cases hfe : db.embedding_fn [text] with
  | nil => exact absurd hfe hemb
  | cons e erest =>
    cases hn : db.config.collection_name with
    | none =>
      refine ⟨?_, ?_, ?_, ?_⟩ <;>
        simp [add_documents, get_documents_by_ids,
          similar_texts_with_scores, exceptOk, hne, hbne, hn, hfe]
    | some cname =>
      have h3 : exceptOk (similar_texts_with_scores db s text k
          whereJson).2.2 = true := by
        by_cases h0 : clientSearch s
            ⟨cname, e, qfilterOf whereJson, k, 128, false⟩ = []
        · simp [similar_texts_with_scores, hfe, hn, h0, exceptOk]
        · simp [similar_texts_with_scores, hfe, hn, h0, exceptOk]
      refine ⟨?_, ?_, ?_, ?_⟩
      · simp [add_documents, exceptOk, hne, hbne, hn]
      · simp [get_documents_by_ids, exceptOk, hn]
      · simp [h3, hn]
      · simp [hn]

theorem ops_error_iff_name_unset_witness :
    (exceptOk (add_documents demoDB8 demoState [demoDoc1]).2 = false
        ↔ demoDB8.config.collection_name = none)
      ∧ (exceptOk (get_documents_by_ids demoDB8 demoState ["1"]).2 = false
        ↔ demoDB8.config.collection_name = none)
      ∧ (exceptOk (similar_texts_with_scores demoDB8 demoState "q" 1
            none).2.2 = false
        ↔ demoDB8.config.collection_name = none)
      ∧ (demoDB8.config.collection_name = none →
          (add_documents demoDB8 demoState [demoDoc1]).1 = []
            ∧ (get_documents_by_ids demoDB8 demoState ["1"]).1 = []
            ∧ (similar_texts_with_scores demoDB8 demoState "q" 1 none).1
              = []) :=
  ops_error_iff_name_unset demoDB8 demoState [demoDoc1] ["1"] "q" 1 none
    (by decide) (by decide) (by decide)

theorem list_collections_nonempty_only_witness :
    (list_collections demoStateAnn).1
        = (demoStateAnn.collections.filter
            (fun e => 0 < pointsCount e.2)).map Prod.fst
      ∧ ∀ name : String, name ∈ (list_collections demoStateAnn).1
        ↔ ∃ e ∈ demoStateAnn.collections, e.1 = name ∧ 0 < pointsCount e.2 :=
  list_collections_nonempty_only demoStateAnn

theorem create_collection_skip_iff_witness :
    ((create_collection demoDB demoState "c").1.countP isRecreateReq = 0
        ↔ ∃ info, getColl demoState "c" = some info
            ∧ info.status = CollectionStatus.green ∧ 0 < pointsCount info)
      ∧ ∀ info, getColl demoState "c" = some info
          → info.status = CollectionStatus.green → 0 < pointsCount info
          → (create_collection demoDB demoState "c").2.1
              = ["Non-empty Collection " ++ "c" ++ " already exists"]
            ∧ (create_collection demoDB demoState "c").2.2
              = Except.ok (withName demoDB "c", demoState) :=
  create_collection_skip_iff demoDB demoState "c"

theorem create_and_set_record_name_witness :
    (∃ s2, (create_collection demoDB demoState "fresh").2.2
        = Except.ok (withName demoDB "fresh", s2))
      ∧ (∃ s2, (set_collection demoDB demoState "fresh").2.2
          = Except.ok (withName demoDB "fresh", s2))
      ∧ (withName demoDB "fresh").config.collection_name = some "fresh" :=
  create_and_set_record_name demoDB demoState "fresh"

theorem add_documents_empty_witness :
    add_documents demoDB3 demoStateAnn [] = ([], Except.ok demoStateAnn) :=
  add_documents_empty demoDB3 demoStateAnn

end Qdrant
